import Mathlib

/-!
Shallow embedding of the conversational AI subsystem of the pathfinder
repository: the provider abstraction (`backend/ai_models/services.py`),
the synchronous generation endpoint
(`backend/chat/views.py`, `ConversationViewSet.generate`) and the
streaming consumer (`backend/chat/consumers.py`, `ChatConsumer`).

Python floats are modelled as rationals (the constants involved, 0.0,
0.7, 1.0, are exactly representable and only order comparisons matter),
Python ints as integers, database rows as lists, and Python exceptions
as `Except String`.
-/

namespace Pathfinder

/-- `ChatMessage` dataclass from `ai_models/services.py`. -/
structure ChatMessage where
  role : String
  content : String
deriving DecidableEq

/-- The keyword arguments of `AIModel.chat` (`model`, `temperature`,
`top_p`, `max_tokens`). -/
structure GenParams where
  model : Option String
  temperature : ℚ
  topP : ℚ
  maxTokens : ℤ
deriving DecidableEq

/-- Python whitespace characters recognised by `str.strip()`
(ASCII range: space, tab, newline, carriage return, vertical tab,
form feed). -/
def isPySpace (c : Char) : Bool :=
  c == ' ' || c == '\t' || c == '\n' || c == '\r' ||
  c == Char.ofNat 11 || c == Char.ofNat 12

/-- Python `str.strip()`: drop leading and trailing whitespace. -/
def pyStrip (s : String) : String :=
  String.mk (((s.data.dropWhile isPySpace).reverse.dropWhile isPySpace).reverse)

/-- Python `str.lower()` (ASCII). -/
def pyLower (s : String) : String :=
  String.mk (s.data.map Char.toLower)

/-- Python `x or None` applied to an optional string: missing and empty
both collapse to `None` (views.py: `model = data.get('model') or None`). -/
def pyOrNone (s : Option String) : Option String :=
  match s with
  | none => none
  | some "" => none
  | some t => some t

/-- `EchoModel.chat` from `ai_models/services.py`: pick the most recent
`user`-role message (via `reversed(list(messages))`), echo its content as
an assistant message, or the fixed placeholder when there is none.  The
keyword parameters are accepted and ignored, exactly as in the source. -/
def echoChat (messages : List ChatMessage) (params : GenParams) : ChatMessage :=
  match messages.reverse.find? (fun m => m.role == "user") with
  | some lastUser => { role := "assistant", content := lastUser.content }
  | none => { role := "assistant", content := "(no input)" }

/-- Outcome of parsing one raw request field (views.py
`float(data.get('temperature', 0.7))` and friends): the key can be
absent, present but unparsable (the conversion raises), or parsed to a
value. -/
inductive RawVal (α : Type) where
  | missing
  | malformed
  | value (v : α)
deriving DecidableEq

/-- `data.get(key, default)` followed by the numeric conversion inside
`try/except`: an absent key yields the default, a conversion failure is
swallowed and yields the default, otherwise the parsed value. -/
def parseField {α : Type} (default : α) : RawVal α → α
  | .missing => default
  | .malformed => default
  | .value v => v

/-- views.py: `temperature = max(0.0, min(1.0, temperature))` after the
`try/except` defaulting to `0.7`. -/
def clampedTemperature (t : RawVal ℚ) : ℚ :=
  max 0 (min 1 (parseField (7/10) t))

/-- views.py: `top_p = max(0.0, min(1.0, top_p))` after the `try/except`
defaulting to `1.0`. -/
def clampedTopP (p : RawVal ℚ) : ℚ :=
  max 0 (min 1 (parseField 1 p))

/-- views.py: `max_tokens = max(1, min(2048, max_tokens))` after the
`try/except` defaulting to `512`. -/
def clampedMaxTokens (m : RawVal ℤ) : ℤ :=
  max 1 (min 2048 (parseField 512 m))

/-- The parameter-handling block of `ConversationViewSet.generate`
(views.py lines 56-73): default on parse failure, then clamp. -/
def validateParams (modelIn : Option String) (t p : RawVal ℚ) (m : RawVal ℤ) :
    GenParams :=
  { model := modelIn
    temperature := clampedTemperature t
    topP := clampedTopP p
    maxTokens := clampedMaxTokens m }

/-- The documented bounds on generation parameters. -/
def paramsInBounds (g : GenParams) : Prop :=
  0 ≤ g.temperature ∧ g.temperature ≤ 1 ∧
  0 ≤ g.topP ∧ g.topP ≤ 1 ∧
  1 ≤ g.maxTokens ∧ g.maxTokens ≤ 2048

/-- The raw body and query string of one POST to the `generate` action. -/
structure GenRequest where
  content : String
  model : Option String
  temperature : RawVal ℚ
  topP : RawVal ℚ
  maxTokens : RawVal ℤ
  providerParam : Option String
deriving DecidableEq

/-- Environment of one `generate` call: the process-wide
`settings.USE_OPENAI` flag, the outcome of `OpenAIModel()` construction
(which raises when the package or `OPENAI_API_KEY` is absent), and the
behaviour of the remote chat call (network I/O, may raise). -/
structure OrchestratorConfig where
  useOpenai : Bool
  openaiConstruct : Except String Unit
  openaiChat : List ChatMessage → GenParams → Except String ChatMessage

/-- views.py: `force = (request.query_params.get('provider') or '').lower().strip()`
then `want_openai = force == 'openai' or getattr(settings, 'USE_OPENAI', False)`. -/
def wantsOpenai (cfg : OrchestratorConfig) (req : GenRequest) : Bool :=
  (pyStrip (pyLower (req.providerParam.getD "")) == "openai") || cfg.useOpenai

/-- The user-role `Message.objects.create` row of `generate`. -/
def mkUserMsg (c : String) : ChatMessage :=
  { role := "user", content := c }

/-- What `ConversationViewSet.generate` hands back to the web layer:
a 400 response for a blank prompt, the 502 response when `OpenAIModel()`
construction raised, a 201 response with both messages and the provider
tag, or an exception that escaped the view uncaught (the source wraps
only provider construction, not `provider.chat`, in `try/except`). -/
inductive GenResult where
  | badRequest
  | providerUnavailable (err : String)
  | created (user : ChatMessage) (assistant : ChatMessage) (providerUsed : String)
  | uncaught (exn : String)
deriving DecidableEq

/-- HTTP status of the response, `none` when no response was produced
because an exception escaped the view. -/
def GenResult.status : GenResult → Option Nat
  | .badRequest => some 400
  | .providerUnavailable _ => some 502
  | .created _ _ _ => some 201
  | .uncaught _ => none

/-- `true` when the view produced a structured HTTP response, `false`
when a raw exception propagated past the view. -/
def GenResult.isStructuredResponse : GenResult → Bool
  | .uncaught _ => false
  | _ => true

/-- `ConversationViewSet.generate` (views.py lines 44-93).  `msgs` is the
conversation's message list in ascending id order (the model `Meta`
ordering); `convo.messages.all()` after the user-row insert is therefore
`msgs ++ [user]`.  Returns the view's outcome and the message list
committed at the end of the request. -/
def pyGenerate (cfg : OrchestratorConfig) (req : GenRequest)
    (msgs : List ChatMessage) : GenResult × List ChatMessage :=
  if pyStrip req.content = "" then (.badRequest, msgs)
  else
    let userMsg := mkUserMsg req.content
    let history := msgs ++ [userMsg]
    let params := validateParams (pyOrNone req.model)
      req.temperature req.topP req.maxTokens
    if wantsOpenai cfg req then
      match cfg.openaiConstruct with
      | .error e => (.providerUnavailable e, history)
      | .ok _ =>
        match cfg.openaiChat history params with
        | .error e => (.uncaught e, history)
        | .ok reply =>
          let asst : ChatMessage := { role := "assistant", content := reply.content }
          (.created userMsg asst "openai", history ++ [asst])
    else
      let reply := echoChat history params
      let asst : ChatMessage := { role := "assistant", content := reply.content }
      (.created userMsg asst "echo", history ++ [asst])

/-- A `Conversation` row: primary key and `owner_id`. -/
structure Conversation where
  id : Nat
  owner : Nat
deriving DecidableEq

/-- `ChatConsumer._owns_conversation`: inside `try`, evaluate
`Conversation.objects.filter(id=convo_id, owner_id=user_id).exists()`
over the table; any lookup failure (`except`) yields `False`. -/
def ownsConversation (db : Except String (List Conversation))
    (userId convoId : Nat) : Bool :=
  match db with
  | .error _ => false
  | .ok convos => convos.any (fun c => c.id == convoId && c.owner == userId)

/-- The connection scope of `ChatConsumer.connect`: the conversation id
from the url route, and the authenticated user id (`none` models both a
missing user and `AnonymousUser`). -/
structure ConnectionScope where
  conversationId : Nat
  user : Option Nat
deriving DecidableEq

/-- Per-connection state after `connect`: rejected (`close()`) or
accepted into the conversation-scoped broadcast group. -/
inductive ConnState where
  | closed
  | accepted (group : String)
deriving DecidableEq

/-- `ChatConsumer.connect`: reject when no authenticated user, reject
when the ownership guard fails, otherwise join `chat_<id>` and accept. -/
def connect (db : Except String (List Conversation))
    (scope : ConnectionScope) : ConnState :=
  match scope.user with
  | none => .closed
  | some uid =>
    if ownsConversation db uid scope.conversationId then
      .accepted ("chat_" ++ toString scope.conversationId)
    else .closed

/-- An inbound client event of `ChatConsumer.receive_json`: a `generate`
request (whose `content` key may be absent), or any other payload. -/
inductive ClientEvent where
  | generate (content : Option String)
  | other (payload : String)
deriving DecidableEq

/-- An outbound `send_json` event of the consumer. -/
inductive OutEvent where
  | messageStart
  | delta (content : String)
  | messageEnd
  | errorEvent (detail : String)
  | broadcast (payload : String)
deriving DecidableEq

/-- consumers.py: `chunks = ["Thinking", ".", ".", ".", "\n", "Echo: ", prompt[:64]]`. -/
def streamChunks (prompt : String) : List String :=
  ["Thinking", ".", ".", ".", "\n", "Echo: ", prompt.take 64]

/-- `ChatConsumer.receive_json`: a blank `generate` prompt yields a
single error event; otherwise `message_start`, one `delta` per chunk of
the canned demo reply, then `message_end`.  Any other event is broadcast
back through the group. -/
def handleEvent (ev : ClientEvent) : List OutEvent :=
  match ev with
  | .generate c =>
    let prompt := c.getD ""
    if pyStrip prompt = "" then [.errorEvent "content is required"]
    else [.messageStart] ++ (streamChunks prompt).map .delta ++ [.messageEnd]
  | .other p => [.broadcast p]

/-- Everything one connection ever emits: nothing when `connect`
rejected it (a closed channel never reaches `receive_json`), else the
concatenation of the per-event outputs. -/
def sessionTrace (db : Except String (List Conversation))
    (scope : ConnectionScope) (incoming : List ClientEvent) : List OutEvent :=
  match connect db scope with
  | .closed => []
  | .accepted _ => (incoming.map handleEvent).flatten

/-- The contents of the `delta` events of a trace, in emission order. -/
def deltaContents (trace : List OutEvent) : List String :=
  trace.filterMap (fun e =>
    match e with
    | .delta s => some s
    | _ => none)

/-- Concatenation of a trace's `delta` contents in emission order. -/
def deltaConcat (trace : List OutEvent) : String :=
  String.join (deltaContents trace)

/-! ### Concrete fixtures used by witnesses and counterexamples -/

/-- A request carrying only a prompt, everything else absent. -/
def defaultReq (c : String) : GenRequest :=
  { content := c, model := none, temperature := .missing, topP := .missing,
    maxTokens := .missing, providerParam := none }

/-- Environment where the echo provider is selected (default policy). -/
def echoOnlyCfg : OrchestratorConfig :=
  { useOpenai := false
    openaiConstruct := .error "openai package not installed"
    openaiChat := fun _ _ => .error "unreachable" }

/-- Environment where the remote provider is the default but its
credential is absent, so `OpenAIModel()` raises. -/
def openaiNoKeyCfg : OrchestratorConfig :=
  { useOpenai := true
    openaiConstruct := .error "OPENAI_API_KEY not configured"
    openaiChat := fun _ _ => .error "unreachable" }

/-- Environment where the remote provider constructs fine but its chat
call raises a transport error. -/
def openaiBoomCfg : OrchestratorConfig :=
  { useOpenai := true
    openaiConstruct := .ok ()
    openaiChat := fun _ _ => .error "boom" }

/-- Neutral parameter bundle (the documented defaults). -/
def defaultParams : GenParams :=
  { model := none, temperature := 7/10, topP := 1, maxTokens := 512 }

/-! ### Helper lemmas -/

/-- Clamping is the identity on values already inside the bounds. -/
theorem max_min_of_mem {α : Type} [LinearOrder α] {lo hi y : α}
    (h1 : lo ≤ y) (h2 : y ≤ hi) : max lo (min hi y) = y := by
  rw [min_eq_right h2, max_eq_right h1]

/-- `find?` skips a prefix in which nothing matches. -/
theorem find?_append_of_none {α : Type} (p : α → Bool) (l1 l2 : List α)
    (h : l1.find? p = none) : (l1 ++ l2).find? p = l2.find? p := by
  induction l1 with
  | nil => rfl
  | cons a t ih =>
    rcases hpa : p a with hf | ht
    · rw [List.find?_cons_of_neg _ (by simp [hpa])] at h
      rw [List.cons_append, List.find?_cons_of_neg _ (by simp [hpa])]
      exact ih h
    · rw [List.find?_cons_of_pos _ hpa] at h
      exact absurd h (by simp)

/-- The echo provider on a history ending in a user message echoes
that message's content. -/
theorem echoChat_append_user (l : List ChatMessage) (t : String)
    (p : GenParams) :
    echoChat (l ++ [mkUserMsg t]) p = { role := "assistant", content := t } := by
  unfold echoChat mkUserMsg
  rw [List.reverse_append]
  simp only [List.reverse_cons, List.reverse_nil, List.nil_append,
    List.cons_append, List.nil_append]
  rw [List.find?_cons_of_pos _ (by rfl)]

/-- Blank-prompt branch of the view. -/
theorem pyGenerate_blank (cfg : OrchestratorConfig) (req : GenRequest)
    (msgs : List ChatMessage) (h : pyStrip req.content = "") :
    pyGenerate cfg req msgs = (.badRequest, msgs) := by
  simp [pyGenerate, h]

/-- Echo branch of the view. -/
theorem pyGenerate_echo_branch (cfg : OrchestratorConfig) (req : GenRequest)
    (msgs : List ChatMessage) (hne : pyStrip req.content ≠ "")
    (hw : wantsOpenai cfg req = false) :
    pyGenerate cfg req msgs =
      (.created (mkUserMsg req.content)
        { role := "assistant", content := req.content } "echo",
       msgs ++ [mkUserMsg req.content,
                { role := "assistant", content := req.content }]) := by
  simp [pyGenerate, hne, hw, echoChat_append_user]

/-- Remote-provider branch when `OpenAIModel()` construction raises. -/
theorem pyGenerate_construct_error (cfg : OrchestratorConfig)
    (req : GenRequest) (msgs : List ChatMessage) (e : String)
    (hne : pyStrip req.content ≠ "") (hw : wantsOpenai cfg req = true)
    (hc : cfg.openaiConstruct = .error e) :
    pyGenerate cfg req msgs =
      (.providerUnavailable e, msgs ++ [mkUserMsg req.content]) := by
  simp [pyGenerate, hne, hw, hc]

/-- Remote-provider branch when the chat call raises: the view has no
handler, the exception escapes. -/
theorem pyGenerate_chat_error (cfg : OrchestratorConfig) (req : GenRequest)
    (msgs : List ChatMessage) (e : String)
    (hne : pyStrip req.content ≠ "") (hw : wantsOpenai cfg req = true)
    (hc : cfg.openaiConstruct = .ok ())
    (hchat : cfg.openaiChat (msgs ++ [mkUserMsg req.content])
      (validateParams (pyOrNone req.model) req.temperature req.topP
        req.maxTokens) = .error e) :
    pyGenerate cfg req msgs = (.uncaught e, msgs ++ [mkUserMsg req.content]) := by
  simp [pyGenerate, hne, hw, hc, hchat]

/-- Remote-provider branch when the chat call succeeds. -/
theorem pyGenerate_chat_ok (cfg : OrchestratorConfig) (req : GenRequest)
    (msgs : List ChatMessage) (reply : ChatMessage)
    (hne : pyStrip req.content ≠ "") (hw : wantsOpenai cfg req = true)
    (hc : cfg.openaiConstruct = .ok ())
    (hchat : cfg.openaiChat (msgs ++ [mkUserMsg req.content])
      (validateParams (pyOrNone req.model) req.temperature req.topP
        req.maxTokens) = .ok reply) :
    pyGenerate cfg req msgs =
      (.created (mkUserMsg req.content)
        { role := "assistant", content := reply.content } "openai",
       msgs ++ [mkUserMsg req.content,
                { role := "assistant", content := reply.content }]) := by
  simp [pyGenerate, hne, hw, hc, hchat]

/-! ### Claim theorems -/

/-- C5: a synchronous generation request whose prompt is empty or
whitespace-only is rejected with a 400 validation error and no message is
appended — the conversation's message collection is unchanged. -/
theorem generate_blank_prompt_rejected (cfg : OrchestratorConfig)
    (req : GenRequest) (msgs : List ChatMessage)
    (h : pyStrip req.content = "") :
    (pyGenerate cfg req msgs).1.status = some 400 ∧
    (pyGenerate cfg req msgs).2 = msgs := by
  rw [pyGenerate_blank cfg req msgs h]
  exact ⟨rfl, rfl⟩

theorem generate_blank_prompt_rejected_witness :
    (pyGenerate echoOnlyCfg (defaultReq "  ") []).1.status = some 400 ∧
    (pyGenerate echoOnlyCfg (defaultReq "  ") []).2 = [] :=
  generate_blank_prompt_rejected echoOnlyCfg (defaultReq "  ") [] (by decide)

/-- C4: when the remote provider is requested (by hint or default) and
its construction fails (e.g. credential absent), the failure is returned
as an explicit 502 provider-unavailable error — not a silent fall back to
the echo provider — and at that point exactly the user message has been
appended, with zero assistant messages. -/
theorem generate_remote_unavailable_surfaced (cfg : OrchestratorConfig)
    (req : GenRequest) (msgs : List ChatMessage) (e : String)
    (hne : pyStrip req.content ≠ "") (hw : wantsOpenai cfg req = true)
    (hc : cfg.openaiConstruct = .error e) :
    (pyGenerate cfg req msgs).1 = .providerUnavailable e ∧
    (pyGenerate cfg req msgs).1.status = some 502 ∧
    (pyGenerate cfg req msgs).2 = msgs ++ [mkUserMsg req.content] := by
  rw [pyGenerate_construct_error cfg req msgs e hne hw hc]
  exact ⟨rfl, rfl, rfl⟩

theorem generate_remote_unavailable_surfaced_witness :
    (pyGenerate openaiNoKeyCfg (defaultReq "hi") []).1 =
      GenResult.providerUnavailable "OPENAI_API_KEY not configured" ∧
    (pyGenerate openaiNoKeyCfg (defaultReq "hi") []).1.status = some 502 ∧
    (pyGenerate openaiNoKeyCfg (defaultReq "hi") []).2 = [mkUserMsg "hi"] :=
  generate_remote_unavailable_surfaced openaiNoKeyCfg (defaultReq "hi") [] _
    (by decide) (by decide) rfl

/-- C6: for every history and every parameter setting, the echo
provider returns an assistant-role message; its content is the content of
the most recent user-role message (scanning from the end), or the fixed
placeholder when the history has no user-role message.  It is a total
function, so it never fails. -/
theorem echoChat_spec (msgs : List ChatMessage) (params : GenParams) :
    (echoChat msgs params).role = "assistant" ∧
    (∀ l1 (m : ChatMessage) l2, msgs = l1 ++ m :: l2 → m.role = "user" →
      (∀ m2 ∈ l2, m2.role ≠ "user") →
      (echoChat msgs params).content = m.content) ∧
    ((∀ m ∈ msgs, m.role ≠ "user") →
      (echoChat msgs params).content = "(no input)") := by
  refine ⟨?_, ?_, ?_⟩
  · unfold echoChat
    rcases h : msgs.reverse.find? (fun m => m.role == "user") with _ | lastUser <;>
      simp [h]
  · intro l1 m l2 hsplit hm hl2
    subst hsplit
    have htail : l2.reverse.find? (fun x => x.role == "user") = none := by
      rw [List.find?_eq_none]
      intro x hx
      simp [hl2 x (List.mem_reverse.mp hx)]
    unfold echoChat
    rw [List.reverse_append, List.reverse_cons,
      List.append_assoc,
      find?_append_of_none _ _ _ htail,
      List.cons_append,
      List.find?_cons_of_pos _ (by simp [hm])]
  · intro hnone
    have hfind : msgs.reverse.find? (fun x => x.role == "user") = none := by
      rw [List.find?_eq_none]
      intro x hx
      simp [hnone x (List.mem_reverse.mp hx)]
    unfold echoChat
    rw [hfind]

theorem echoChat_spec_witness :
    (echoChat [{ role := "user", content := "A" },
               { role := "assistant", content := "B" },
               { role := "user", content := "C" }] defaultParams).content = "C" :=
  (echoChat_spec _ _).2.1
    [{ role := "user", content := "A" }, { role := "assistant", content := "B" }]
    { role := "user", content := "C" } [] rfl rfl (by simp)

/-- C9: the ownership guard returns `true` exactly when a conversation
row with that id exists whose owner is that user; it returns `false` for
a missing row or a different owner, and a lookup error resolves to
`false` instead of an exception reaching the caller. -/
theorem ownsConversation_spec (userId convoId : Nat) :
    (∀ convos : List Conversation,
      (ownsConversation (.ok convos) userId convoId = true ↔
        ∃ c ∈ convos, c.id = convoId ∧ c.owner = userId)) ∧
    (∀ e : String, ownsConversation (.error e) userId convoId = false) := by
  constructor
  · intro convos
    simp [ownsConversation, List.any_eq_true]
  · intro e
    rfl

/-- C7: for each raw field independently missing or malformed, the
validated parameters satisfy the documented bounds; an unparsable field
becomes its default (temperature 0.7, top_p 1.0, max_tokens 512) rather
than an error; and validation is idempotent — already-valid parameters
are left unchanged. -/
theorem validateParams_bounds_idempotent (mo : Option String)
    (t p : RawVal ℚ) (m : RawVal ℤ) :
    paramsInBounds (validateParams mo t p m) ∧
    validateParams mo .malformed .malformed .malformed =
      { model := mo, temperature := 7/10, topP := 1, maxTokens := 512 } ∧
    validateParams mo .missing .missing .missing =
      { model := mo, temperature := 7/10, topP := 1, maxTokens := 512 } ∧
    (∀ g : GenParams, paramsInBounds g →
      validateParams g.model (.value g.temperature) (.value g.topP)
        (.value g.maxTokens) = g) := by
  refine ⟨⟨?_, ?_, ?_, ?_, ?_, ?_⟩, ?_, ?_, ?_⟩
  · exact le_max_left 0 _
  · exact max_le (by norm_num) (min_le_left 1 _)
  · exact le_max_left 0 _
  · exact max_le (by norm_num) (min_le_left 1 _)
  · exact le_max_left 1 _
  · exact max_le (by norm_num) (min_le_left 2048 _)
  · simp only [validateParams, clampedTemperature, clampedTopP,
      clampedMaxTokens, parseField]
    norm_num
  · simp only [validateParams, clampedTemperature, clampedTopP,
      clampedMaxTokens, parseField]
    norm_num
  · intro g hg
    obtain ⟨h1, h2, h3, h4, h5, h6⟩ := hg
    simp [validateParams, clampedTemperature, clampedTopP, clampedMaxTokens,
      parseField, max_min_of_mem h1 h2, max_min_of_mem h3 h4,
      max_min_of_mem h5 h6]

theorem validateParams_bounds_idempotent_witness :
    validateParams none (RawVal.value (7/10)) (RawVal.value 1)
      (RawVal.value 512) = defaultParams :=
  (validateParams_bounds_idempotent none .missing .missing .missing).2.2.2
    defaultParams (by norm_num [paramsInBounds, defaultParams])

/-- C10: on the echo path with a non-blank prompt, the history handed to
the provider is the id-ordered message list with the just-appended user
message last, so the persisted assistant message's content equals the
submitted prompt text exactly. -/
theorem generate_echo_reply_equals_prompt (cfg : OrchestratorConfig)
    (req : GenRequest) (msgs : List ChatMessage)
    (hne : pyStrip req.content ≠ "") (hw : wantsOpenai cfg req = false) :
    (pyGenerate cfg req msgs).1 =
      .created (mkUserMsg req.content)
        { role := "assistant", content := req.content } "echo" ∧
    (pyGenerate cfg req msgs).2 =
      msgs ++ [mkUserMsg req.content,
               { role := "assistant", content := req.content }] := by
  rw [pyGenerate_echo_branch cfg req msgs hne hw]
  exact ⟨rfl, rfl⟩

theorem generate_echo_reply_equals_prompt_witness :
    (pyGenerate echoOnlyCfg (defaultReq "hello")
        [{ role := "user", content := "old" },
         { role := "assistant", content := "old" }]).1 =
      GenResult.created (mkUserMsg "hello")
        { role := "assistant", content := "hello" } "echo" :=
  (generate_echo_reply_equals_prompt echoOnlyCfg (defaultReq "hello")
    [{ role := "user", content := "old" },
     { role := "assistant", content := "old" }] (by decide) (by decide)).1

/-- C8: a connection whose context carries no authenticated identity, or
whose identity does not own the target conversation, is closed by
`connect` without being accepted, and the connection's emitted event
trace is empty whatever the client later sends — no start, delta or end
event is ever observed. -/
theorem connect_unauthorized_closed (db : Except String (List Conversation))
    (scope : ConnectionScope)
    (h : scope.user = none ∨
      ∃ uid, scope.user = some uid ∧
        ownsConversation db uid scope.conversationId = false) :
    connect db scope = ConnState.closed ∧
    ∀ incoming : List ClientEvent, sessionTrace db scope incoming = [] := by
  have hc : connect db scope = ConnState.closed := by
    rcases h with h1 | ⟨uid, h2, h3⟩
    · simp [connect, h1]
    · simp [connect, h2, h3]
  refine ⟨hc, fun incoming => ?_⟩
  simp [sessionTrace, hc]

theorem connect_unauthorized_closed_witness :
    connect (.ok [{ id := 1, owner := 42 }])
      { conversationId := 1, user := some 7 } = ConnState.closed ∧
    sessionTrace (.ok [{ id := 1, owner := 42 }])
      { conversationId := 1, user := some 7 }
      [ClientEvent.generate (some "hi")] = [] := by
  have h := connect_unauthorized_closed (.ok [{ id := 1, owner := 42 }])
    { conversationId := 1, user := some 7 } (Or.inr ⟨7, rfl, by decide⟩)
  exact ⟨h.1, h.2 [ClientEvent.generate (some "hi")]⟩

/-- C3 counterexample: with the remote provider selected by the default
policy and its credential absent, the request returns a 502 response with
only the user message committed — the user/assistant pair was not
committed as a unit. -/
theorem generate_partial_commit_counterexample :
    (pyGenerate openaiNoKeyCfg (defaultReq "hi") []).1.status = some 502 ∧
    (pyGenerate openaiNoKeyCfg (defaultReq "hi") []).2 = [mkUserMsg "hi"] ∧
    ((pyGenerate openaiNoKeyCfg (defaultReq "hi") []).2.filter
      (fun m2 => m2.role == "assistant")) = [] := by
  decide

/-- C3 (amended): a successful generation request appends exactly one
user message followed by exactly one assistant message; the user message
is committed on its own before the provider is invoked, so a provider
failure leaves the state with only the user message committed (by
design), and a blank prompt leaves the state unchanged. -/
theorem generate_append_discipline (cfg : OrchestratorConfig)
    (req : GenRequest) (msgs : List ChatMessage) :
    (∀ u a pu, (pyGenerate cfg req msgs).1 = .created u a pu →
      (pyGenerate cfg req msgs).2 = msgs ++ [u, a] ∧
      u = mkUserMsg req.content ∧ a.role = "assistant") ∧
    (∀ e, (pyGenerate cfg req msgs).1 = .providerUnavailable e →
      (pyGenerate cfg req msgs).2 = msgs ++ [mkUserMsg req.content]) ∧
    (∀ e, (pyGenerate cfg req msgs).1 = .uncaught e →
      (pyGenerate cfg req msgs).2 = msgs ++ [mkUserMsg req.content]) ∧
    ((pyGenerate cfg req msgs).1 = .badRequest →
      (pyGenerate cfg req msgs).2 = msgs) := by
  by_cases hb : pyStrip req.content = ""
  · rw [pyGenerate_blank cfg req msgs hb]
    exact ⟨fun u a pu h => by simp at h, fun e h => by simp at h,
      fun e h => by simp at h, fun _ => rfl⟩
  · by_cases hw : wantsOpenai cfg req = true
    · cases hc : cfg.openaiConstruct with
      | error e0 =>
        rw [pyGenerate_construct_error cfg req msgs e0 hb hw hc]
        refine ⟨fun u a pu h => by simp at h, fun e h => ?_,
          fun e h => by simp at h, fun h => by simp at h⟩
        rfl
      | ok u0 =>
        cases u0
        cases hchat : cfg.openaiChat (msgs ++ [mkUserMsg req.content])
            (validateParams (pyOrNone req.model) req.temperature req.topP
              req.maxTokens) with
        | error e0 =>
          rw [pyGenerate_chat_error cfg req msgs e0 hb hw hc hchat]
          refine ⟨fun u a pu h => by simp at h, fun e h => by simp at h,
            fun e h => ?_, fun h => by simp at h⟩
          rfl
        | ok reply =>
          rw [pyGenerate_chat_ok cfg req msgs reply hb hw hc hchat]
          refine ⟨fun u a pu h => ?_, fun e h => by simp at h,
            fun e h => by simp at h, fun h => by simp at h⟩
          simp only [GenResult.created.injEq] at h
          obtain ⟨hu, ha, _⟩ := h
          subst hu; subst ha
          exact ⟨rfl, rfl, rfl⟩
    · have hw2 : wantsOpenai cfg req = false := by
        simpa using hw
      rw [pyGenerate_echo_branch cfg req msgs hb hw2]
      refine ⟨fun u a pu h => ?_, fun e h => by simp at h,
        fun e h => by simp at h, fun h => by simp at h⟩
      simp only [GenResult.created.injEq] at h
      obtain ⟨hu, ha, _⟩ := h
      subst hu; subst ha
      exact ⟨rfl, rfl, rfl⟩

theorem generate_append_discipline_witness :
    (pyGenerate echoOnlyCfg (defaultReq "hi") []).2 =
      [mkUserMsg "hi", { role := "assistant", content := "hi" }] :=
  ((generate_append_discipline echoOnlyCfg (defaultReq "hi") []).1
    (mkUserMsg "hi") { role := "assistant", content := "hi" } "echo"
    (by decide)).1

/-- C2 counterexample: with the remote provider constructed successfully
and its chat call raising a transport error, the view produces no
structured response — the raw exception escapes the orchestrator
boundary instead of becoming a ProviderError result. -/
theorem generate_chat_failure_counterexample :
    (pyGenerate openaiBoomCfg (defaultReq "hi") []).1 =
      GenResult.uncaught "boom" ∧
    (pyGenerate openaiBoomCfg (defaultReq "hi") []).1.isStructuredResponse
      = false := by
  decide

/-- C2 (amended): failures of remote provider construction are caught at
the view boundary and converted into an explicit 502 provider-unavailable
response; failures raised by the provider's chat call itself are NOT
caught — the raw exception escapes the view — and in neither case is a
failure silently converted into a (possibly empty) assistant reply. -/
theorem generate_provider_failure_policy (cfg : OrchestratorConfig)
    (req : GenRequest) (msgs : List ChatMessage) (e : String)
    (hne : pyStrip req.content ≠ "") (hw : wantsOpenai cfg req = true) :
    (cfg.openaiConstruct = .error e →
      (pyGenerate cfg req msgs).1 = .providerUnavailable e ∧
      (pyGenerate cfg req msgs).1.status = some 502) ∧
    (cfg.openaiConstruct = .ok () →
      cfg.openaiChat (msgs ++ [mkUserMsg req.content])
        (validateParams (pyOrNone req.model) req.temperature req.topP
          req.maxTokens) = .error e →
      (pyGenerate cfg req msgs).1 = .uncaught e ∧
      (pyGenerate cfg req msgs).1.isStructuredResponse = false ∧
      ∀ u a pu, (pyGenerate cfg req msgs).1 ≠ .created u a pu) := by
  constructor
  · intro hc
    rw [pyGenerate_construct_error cfg req msgs e hne hw hc]
    exact ⟨rfl, rfl⟩
  · intro hc hchat
    rw [pyGenerate_chat_error cfg req msgs e hne hw hc hchat]
    exact ⟨rfl, rfl, fun u a pu h => by simp at h⟩

theorem generate_provider_failure_policy_witness :
    (pyGenerate openaiNoKeyCfg (defaultReq "yo") []).1 =
      GenResult.providerUnavailable "OPENAI_API_KEY not configured" :=
  (((generate_provider_failure_policy openaiNoKeyCfg (defaultReq "yo") []
    "OPENAI_API_KEY not configured" (by decide) (by decide)).1) rfl).1

set_option maxRecDepth 8192 in
/-- C1 counterexample: for a fresh conversation and the prompt "hi", the
non-streaming echo call returns reply content "hi", while the streaming
session's delta events concatenate to "Thinking...\nEcho: hi" — the two
differ. -/
theorem stream_concat_ne_sync_counterexample :
    (pyGenerate echoOnlyCfg (defaultReq "hi") []).1 =
      GenResult.created (mkUserMsg "hi")
        { role := "assistant", content := "hi" } "echo" ∧
    deltaConcat (handleEvent (ClientEvent.generate (some "hi"))) =
      "Thinking...\nEcho: hi" ∧
    ("Thinking...\nEcho: hi" : String) ≠ "hi" := by
  decide

/-- C1 (amended): the streaming path never invokes a provider; for a
non-blank prompt the concatenation, in emission order, of the delta
contents between the start and end events equals the fixed canned demo
text "Thinking...\nEcho: " followed by the first 64 characters of the
prompt, which in general differs from the non-streaming provider reply
for the same input. -/
theorem stream_deltas_concat_canned (prompt : String)
    (h : pyStrip prompt ≠ "") :
    deltaConcat (handleEvent (ClientEvent.generate (some prompt))) =
      "Thinking...\nEcho: " ++ prompt.take 64 ∧
    handleEvent (ClientEvent.generate (some prompt)) =
      [OutEvent.messageStart] ++
        (streamChunks prompt).map OutEvent.delta ++ [OutEvent.messageEnd] := by
  constructor
  · simp [handleEvent, h, deltaConcat, deltaContents, streamChunks,
      String.join]
  · simp [handleEvent, h]

set_option maxRecDepth 8192 in
theorem stream_deltas_concat_canned_witness :
    deltaConcat (handleEvent (ClientEvent.generate (some "hello"))) =
      "Thinking...\nEcho: hello" := by
  rw [(stream_deltas_concat_canned "hello" (by decide)).1]
  decide

end Pathfinder
